import Mathlib

/-!
# Verification of the recipe-qa-assistant retrieval core

A shallow embedding, in Lean 4, of the parts of the repository that the
frozen claims talk about:

* `src/prepare_data.py` — the `health_category` derivation performed by
  `preprocess_recipes` via `pd.cut`;
* `src/evaluate_retrieval.py` — `calculate_ndcg_at_k` and
  `calculate_recall_at_k`;
* `src/retrieval.py` — `RecipeRetriever._build_index` (sklearn
  `TfidfVectorizer.fit_transform`) and `RecipeRetriever.retrieve_recipes`
  (sklearn `cosine_similarity` followed by
  `np.argsort(similarities)[-k:][::-1]`).

Python floats are modelled as real numbers (`ℝ`) where logarithms and
square roots occur, and as rationals (`ℚ`) where all arithmetic is exact.
Machine-level floating point rounding is not modelled; every numeric claim
below is about the real-number value the code computes.
-/

namespace RecipeQA

/-! ## prepare_data.py -/

/-- The four labels passed to `pd.cut` in `preprocess_recipes`
(`src/prepare_data.py`). -/
inductive HealthCategory where
  | low_calorie
  | moderate
  | high_calorie
  | very_high_calorie
deriving DecidableEq

/-- `preprocess_recipes` (`src/prepare_data.py` lines 86–92) derives
`health_category` with

`pd.cut(calories, bins=[0, 200, 400, 600, inf], labels=[...])`.

`pd.cut` with its default `right=True` (and `include_lowest=False`) buckets a
value `x` into the half-open-on-the-left intervals `(0, 200]`, `(200, 400]`,
`(400, 600]`, `(600, inf)`; a value outside every bin (here `x ≤ 0`), like a
missing (`NaN`) value, gets no label.  A missing `calories` value
(`pd.to_numeric(..., errors='coerce')` upstream) is modelled as `none`. -/
def health_category (calories : Option ℚ) : Option HealthCategory :=
  match calories with
  | none => none
  | some x =>
    if 0 < x ∧ x ≤ 200 then some .low_calorie
    else if 200 < x ∧ x ≤ 400 then some .moderate
    else if 400 < x ∧ x ≤ 600 then some .high_calorie
    else if 600 < x then some .very_high_calorie
    else none

/-! ## evaluate_retrieval.py -/

/-- DCG part of `calculate_ndcg_at_k` (`src/evaluate_retrieval.py` lines
26–31): binary relevance, the item at 1-based rank `i` of the truncated
list contributes `1 / log2 (i + 1)` when it is relevant.  `List.enum` is
0-based, so the discount of the pair `(p₁, p₂)` is `1 / log2 (p₁ + 2)`. -/
noncomputable def dcg (relevant : Finset ℕ) (retrieved : List ℕ) (k : ℕ) : ℝ :=
  (((retrieved.take k).enum).map
    (fun p => if p.2 ∈ relevant then 1 / Real.logb 2 (p.1 + 2) else 0)).sum

/-- IDCG part of `calculate_ndcg_at_k` (`src/evaluate_retrieval.py` lines
33–36): `num_relevant = min(len(relevant_items), k)` and the ideal ranking
puts that many relevant items at the top. -/
noncomputable def idcg (relevant : Finset ℕ) (k : ℕ) : ℝ :=
  ((List.range (min relevant.card k)).map
    (fun i : ℕ => 1 / Real.logb 2 ((i : ℝ) + 2))).sum

/-- `calculate_ndcg_at_k` (`src/evaluate_retrieval.py` lines 10–43),
including its `if idcg == 0: return 0.0` guard. -/
noncomputable def calculate_ndcg_at_k (relevant : Finset ℕ) (retrieved : List ℕ)
    (k : ℕ) : ℝ :=
  if idcg relevant k = 0 then 0 else dcg relevant retrieved k / idcg relevant k

/-- `calculate_recall_at_k` (`src/evaluate_retrieval.py` lines 45–68):
`if len(relevant_items) == 0: return 0.0`, otherwise
`len(relevant ∩ set(retrieved[:k])) / len(relevant)`.  The Python `set` of
the truncated list is modelled by `Finset`; the float division is exact
here, so the result is modelled in `ℚ`. -/
def calculate_recall_at_k (relevant : Finset ℕ) (retrieved : List ℕ) (k : ℕ) : ℚ :=
  if relevant.card = 0 then 0
  else ((relevant ∩ (retrieved.take k).toFinset).card : ℚ) / (relevant.card : ℚ)

/-! ## retrieval.py — data model

The analyzer of sklearn's `TfidfVectorizer(ngram_range=(1,2),
stop_words='english', lowercase=True)` turns a text into the list of its
lowercased, stop-word-filtered unigrams and bigrams.  None of the claims
depends on the internals of that string processing, so here a document (and
likewise a query, which `retrieve_recipes` lowercases and feeds through
`vectorizer.transform`) is represented directly by its analyzer output: a
`List String` of tokens. -/

/-- One record of the Document Store (`self.recipes` in `RecipeRetriever`),
reduced to the fields the claims touch: its identifier and the analyzer
output of its `searchable_text`. -/
structure Recipe where
  recipe_id : ℕ
  tokens : List String
deriving DecidableEq

instance : Inhabited Recipe := ⟨⟨0, []⟩⟩

/-- The sklearn errors surfaced by `_build_index`.  `valueError` is what
`TfidfVectorizer.fit_transform` raises when no vocabulary can be formed.

Modelled from the spec: the spec's error taxonomy (§7) names an
`IndexBuildError` class for this situation; no such class exists anywhere
in the source, so the constructor `indexBuildError` is introduced here only
so that the spec's statement about it can be expressed and compared with
what the code actually raises. -/
inductive PyError where
  | valueError (msg : String)
  | indexBuildError (msg : String)
deriving DecidableEq

/-- Detects the spec's `IndexBuildError` among raised errors. -/
def isIndexBuildError {α : Type} : Except PyError α → Bool
  | .error (.indexBuildError _) => true
  | _ => false

/-- The state `_build_index` leaves on the retriever: the fitted vocabulary
(`self.vectorizer.vocabulary_`), its idf weights, and the L2-normalised
TF-IDF row per document (`self.tfidf_matrix`). -/
structure TfidfIndex where
  vocab : List String
  idf : List ℝ
  tfidf : List (List ℝ)

/-- The whole `RecipeRetriever` object state after `__init__`: the loaded
recipes plus the built index. -/
structure RecipeRetriever where
  recipes : List Recipe
  index : TfidfIndex

/-! ## retrieval.py — vector arithmetic (sklearn semantics) -/

/-- Dot product of two dense vectors, truncating at the shorter one (the
vectors compared by the code always share the vocabulary dimension). -/
noncomputable def dot (u v : List ℝ) : ℝ :=
  ((u.zip v).map (fun p => p.1 * p.2)).sum

/-- The Euclidean norm used by sklearn's L2 normalisation. -/
noncomputable def vecNorm (v : List ℝ) : ℝ :=
  Real.sqrt ((v.map (fun x => x * x)).sum)

/-- sklearn `normalize(.., norm='l2')`: divide by the Euclidean norm,
leaving an all-zero vector unchanged (sklearn skips rows of norm 0, which
is what makes a zero-overlap query "fail silently to an all-zero vector"). -/
noncomputable def l2norm (v : List ℝ) : List ℝ :=
  if vecNorm v = 0 then v else v.map (fun x => x / vecNorm v)

/-- Number of documents a term occurs in (document frequency), as counted
by `CountVectorizer` during `fit`. -/
def docFreq (t : String) (docs : List (List String)) : ℕ :=
  (docs.filter (fun d => t ∈ d)).length

/-- `TfidfVectorizer.fit_transform` as configured in `_build_index`
(`src/retrieval.py` lines 43–63): collect the candidate terms, raise
`ValueError` if there are none (empty document list, or every document
empty after tokenization and stop-word filtering), prune terms occurring in
fewer than `min_df = 2` documents (raising `ValueError` if nothing
remains), cap the vocabulary at `max_features = 5000`, compute the
smoothed idf `ln((1 + N) / (1 + df)) + 1`, and L2-normalise each
document's tf·idf row.  (`max_features` selects the highest-frequency
terms; the cap is modelled by `take 5000`, which no claim exercises, since
ordering among retained terms is irrelevant here.) -/
noncomputable def fit_transform (docs : List (List String)) :
    Except PyError TfidfIndex :=
  let candidates := docs.flatten.dedup
  if candidates.isEmpty then
    .error (.valueError "empty vocabulary; perhaps the documents only contain stop words")
  else
    let vocab := (candidates.filter (fun t => 2 ≤ docFreq t docs)).take 5000
    if vocab.isEmpty then
      .error (.valueError "After pruning, no terms remain. Try a lower min_df or a higher max_df.")
    else
      let n := docs.length
      let idf := vocab.map (fun t =>
        Real.log ((1 + (n : ℝ)) / (1 + (docFreq t docs : ℝ))) + 1)
      let rows := docs.map (fun d =>
        l2norm ((vocab.zip idf).map (fun p => ((d.count p.1 : ℝ) * p.2))))
      .ok ⟨vocab, idf, rows⟩

/-- `RecipeRetriever.__init__`: load the recipes, then `_build_index` over
their searchable texts; a build failure propagates (no retriever object). -/
noncomputable def mkRetriever (recipes : List Recipe) :
    Except PyError RecipeRetriever :=
  (fit_transform (recipes.map Recipe.tokens)).map (fun ix => ⟨recipes, ix⟩)

/-! ## retrieval.py — retrieve_recipes -/

/-- `vectorizer.transform([query.lower()])` (`src/retrieval.py` line 77):
count each vocabulary term in the query's token list, weight by idf,
L2-normalise (out-of-vocabulary tokens contribute nothing). -/
noncomputable def transformQuery (ix : TfidfIndex) (query : List String) :
    List ℝ :=
  l2norm ((ix.vocab.zip ix.idf).map (fun p => ((query.count p.1 : ℝ) * p.2)))

/-- `cosine_similarity(query_vector, tfidf_matrix).flatten()`
(`src/retrieval.py` line 80): sklearn L2-normalises both arguments (a
zero vector stays zero) and takes dot products, one score per document
row. -/
noncomputable def cosineSims (ix : TfidfIndex) (query : List String) :
    List ℝ :=
  ix.tfidf.map (fun row => dot (l2norm (transformQuery ix query)) (l2norm row))

/-- The score `np.argsort` sorts by: the similarity of document `i`, read
with default `0` (every index produced below is in range). -/
def score (s : List ℝ) (i : ℕ) : ℝ := s.getD i 0

/-- The comparison realised by `np.argsort(similarities)`: ascending by
score.  `np.argsort`'s default kind is deterministic and, on the small
arrays involved here, reduces to a stable insertion sort, so equal scores
keep their original index order in the *ascending* result; this is the
tie-behaviour most favourable to the spec's stability claim. -/
def keyLe (s : List ℝ) (i j : ℕ) : Prop :=
  score s i < score s j ∨ (score s i = score s j ∧ i ≤ j)

noncomputable instance (s : List ℝ) : DecidableRel (keyLe s) := fun i j =>
  inferInstanceAs (Decidable (score s i < score s j ∨ (score s i = score s j ∧ i ≤ j)))

instance (s : List ℝ) : IsTotal ℕ (keyLe s) where
  total i j := by
    rcases lt_trichotomy (score s i) (score s j) with h | h | h
    · exact Or.inl (Or.inl h)
    · rcases Nat.le_total i j with hij | hij
      · exact Or.inl (Or.inr ⟨h, hij⟩)
      · exact Or.inr (Or.inr ⟨h.symm, hij⟩)
    · exact Or.inr (Or.inl h)

instance (s : List ℝ) : IsTrans ℕ (keyLe s) where
  trans i j l hij hjl := by
    rcases hij with h₁ | ⟨h₁, h₁'⟩ <;> rcases hjl with h₂ | ⟨h₂, h₂'⟩
    · exact Or.inl (h₁.trans h₂)
    · exact Or.inl (h₂ ▸ h₁)
    · exact Or.inl (h₁ ▸ h₂)
    · exact Or.inr ⟨h₁.trans h₂, h₁'.trans h₂'⟩

/-- `np.argsort(similarities)`: the indices `0 .. n-1` sorted ascending by
score. -/
noncomputable def argsortAsc (s : List ℝ) : List ℕ :=
  List.insertionSort (keyLe s) (List.range s.length)

/-- Python's suffix slice `l[start:]` (CPython semantics): a negative
`start` counts from the end and clamps at 0; a non-negative `start` drops
that many elements.  In particular `l[-0:]`, i.e. `start = 0`, is the whole
list. -/
def pySliceFrom {α : Type} (start : ℤ) (l : List α) : List α :=
  if start < 0 then l.drop (l.length - (-start).toNat) else l.drop start.toNat

/-- `np.argsort(similarities)[-k:][::-1]` (`src/retrieval.py` line 83). -/
noncomputable def topKIndices (s : List ℝ) (k : ℤ) : List ℕ :=
  (pySliceFrom (-k) (argsortAsc s)).reverse

/-- `RecipeRetriever.retrieve_recipes` (`src/retrieval.py` lines 65–92):
vectorize the query, score every document, pick the top-k indices, and pair
each selected record with its `relevance_score`.  `self.recipes[idx].copy()`
followed by adding the score key is modelled by building the pair
`(record, score)`; `k` is a Python `int`, hence `ℤ`. -/
noncomputable def retrieve_recipes (st : RecipeRetriever) (query : List String)
    (k : ℤ) : List (Recipe × ℝ) :=
  (topKIndices (cosineSims st.index query) k).map
    (fun i => (st.recipes.getD i default, score (cosineSims st.index query) i))

/-- `retrieve_recipes` as a state transformer: the method reads
`self.recipes`, `self.vectorizer` and `self.tfidf_matrix` and writes only
copies (`recipe.copy()` on line 88 is what keeps the stored dicts intact),
so the retriever state it leaves behind is the one it started from.  The
result list is accumulated exactly as the Python loop does
(`results.append(...)` on lines 86–90). -/
noncomputable def retrieve_recipes_step (st : RecipeRetriever)
    (query : List String) (k : ℤ) : List (Recipe × ℝ) × RecipeRetriever :=
  ((topKIndices (cosineSims st.index query) k).foldl
    (fun acc i =>
      acc ++ [(st.recipes.getD i default, score (cosineSims st.index query) i)])
    [], st)

/-! ## Shared helper lemmas -/

/-- `log2 2 = 1`. -/
lemma logb_two_two : Real.logb 2 2 = 1 :=
  Real.logb_self_eq_one (by norm_num)

/-- `log2 4 = 2`. -/
lemma logb_two_four : Real.logb 2 4 = 2 := by
  rw [show (4 : ℝ) = 2 ^ (2 : ℕ) by norm_num, Real.logb_pow, logb_two_two]
  norm_num

/-- Lower rational bound on `log2 3`, from `2 ^ 49 < 3 ^ 31`. -/
lemma log2_three_lb : (49 : ℝ) / 31 < Real.logb 2 3 := by
  rw [Real.lt_logb_iff_rpow_lt (by norm_num) (by norm_num)]
  have key : ((2 : ℝ) ^ ((49 : ℝ) / 31)) ^ (31 : ℕ) < (3 : ℝ) ^ (31 : ℕ) := by
    rw [← Real.rpow_natCast ((2 : ℝ) ^ ((49 : ℝ) / 31)) 31,
      ← Real.rpow_mul (by norm_num : (0 : ℝ) ≤ 2),
      show (49 : ℝ) / 31 * ((31 : ℕ) : ℝ) = ((49 : ℕ) : ℝ) by push_cast; ring,
      Real.rpow_natCast]
    norm_num
  exact lt_of_pow_lt_pow_left₀ 31 (by norm_num) key

/-- Upper rational bound on `log2 3`, from `3 ^ 41 < 2 ^ 65`. -/
lemma log2_three_ub : Real.logb 2 3 < (65 : ℝ) / 41 := by
  rw [Real.logb_lt_iff_lt_rpow (by norm_num) (by norm_num)]
  have key : (3 : ℝ) ^ (41 : ℕ) < ((2 : ℝ) ^ ((65 : ℝ) / 41)) ^ (41 : ℕ) := by
    rw [← Real.rpow_natCast ((2 : ℝ) ^ ((65 : ℝ) / 41)) 41,
      ← Real.rpow_mul (by norm_num : (0 : ℝ) ≤ 2),
      show (65 : ℝ) / 41 * ((41 : ℕ) : ℝ) = ((65 : ℕ) : ℝ) by push_cast; ring,
      Real.rpow_natCast]
    norm_num
  exact lt_of_pow_lt_pow_left₀ 41 (Real.rpow_nonneg (by norm_num) _) key

/-! ## Claim C7 — health_category buckets -/

/-- C7 counterexample: the claim places `calories = 200` in `[200, 400)`,
i.e. `moderate`, but `pd.cut` with right-closed bins labels 200 as
`low_calorie` (the bin `(0, 200]`). -/
theorem C7_health_category_counterexample :
    health_category (some 200) = some HealthCategory.low_calorie ∧
    HealthCategory.low_calorie ≠ HealthCategory.moderate := by
  constructor
  · rfl
  · decide

/-- C7 (amended): the buckets are right-closed, `(0,200] → low_calorie`,
`(200,400] → moderate`, `(400,600] → high_calorie`, `(600,∞) →
very_high_calorie`; the category is undefined when `calories` is missing
and also when `calories ≤ 0`. -/
theorem C7_health_category_buckets (x : ℚ) :
    (0 < x → x ≤ 200 → health_category (some x) = some HealthCategory.low_calorie) ∧
    (200 < x → x ≤ 400 → health_category (some x) = some HealthCategory.moderate) ∧
    (400 < x → x ≤ 600 → health_category (some x) = some HealthCategory.high_calorie) ∧
    (600 < x → health_category (some x) = some HealthCategory.very_high_calorie) ∧
    (x ≤ 0 → health_category (some x) = none) ∧
    health_category none = none := by
  simp only [health_category]
  refine ⟨fun h1 h2 => ?_, fun h1 h2 => ?_, fun h1 h2 => ?_, fun h1 => ?_,
    fun h1 => ?_, trivial⟩
  · rw [if_pos ⟨h1, h2⟩]
  · rw [if_neg (by push_neg; intro _; linarith), if_pos ⟨h1, h2⟩]
  · rw [if_neg (by push_neg; intro _; linarith),
      if_neg (by push_neg; intro _; linarith), if_pos ⟨h1, h2⟩]
  · rw [if_neg (by push_neg; intro _; linarith),
      if_neg (by push_neg; intro _; linarith),
      if_neg (by push_neg; intro _; linarith), if_pos h1]
  · rw [if_neg (by push_neg; intro h; linarith),
      if_neg (by push_neg; intro h; linarith),
      if_neg (by push_neg; intro h; linarith), if_neg (by linarith)]

/-- C7 witness: the amended bucket map evaluated at `calories = 100`. -/
theorem C7_health_category_witness :
    health_category (some 100) = some HealthCategory.low_calorie :=
  (C7_health_category_buckets 100).1 (by norm_num) (by norm_num)

/-! ## Claim C10 — recall is total on an empty relevant set -/

/-- C10: `calculate_recall_at_k` returns 0 on an empty relevant set (no
division by zero) and the intersection ratio otherwise. -/
theorem C10_recall_total (relevant : Finset ℕ) (retrieved : List ℕ) (k : ℕ) :
    (relevant = ∅ → calculate_recall_at_k relevant retrieved k = 0) ∧
    (relevant ≠ ∅ →
      calculate_recall_at_k relevant retrieved k =
        ((relevant ∩ (retrieved.take k).toFinset).card : ℚ) /
          (relevant.card : ℚ)) := by
  constructor
  · intro h
    subst h
    simp [calculate_recall_at_k]
  · intro h
    rw [calculate_recall_at_k, if_neg (by simpa [Finset.card_eq_zero] using h)]

/-- C10 witness: both branches at concrete inputs. -/
theorem C10_recall_total_witness :
    calculate_recall_at_k ∅ [1, 2, 3] 3 = 0 :=
  (C10_recall_total ∅ [1, 2, 3] 3).1 rfl

/-! ## Claim C8 — the NDCG@3 scenario -/

/-- C8: in the spec's scenario (`relevant = {5, 9}`,
`retrieved = [9, 1, 5]`, `k = 3`) the code computes
`DCG = 1/log2 2 + 0 + 1/log2 4 = 3/2`, `IDCG = 1/log2 2 + 1/log2 3`, and
`NDCG = DCG / IDCG ≈ 0.919` (within `0.001`). -/
theorem C8_ndcg_scenario :
    dcg {5, 9} [9, 1, 5] 3 = 3 / 2 ∧
    idcg {5, 9} 3 = 1 + 1 / Real.logb 2 3 ∧
    |calculate_ndcg_at_k {5, 9} [9, 1, 5] 3 - 919 / 1000| < 1 / 1000 := by
  have hdcg : dcg {5, 9} [9, 1, 5] 3 = 3 / 2 := by
    unfold dcg
    rw [show (([9, 1, 5] : List ℕ).take 3).enum = [(0, 9), (1, 1), (2, 5)] from rfl]
    simp only [List.map_cons, List.map_nil, List.sum_cons, List.sum_nil]
    rw [if_pos (by decide), if_neg (by decide), if_pos (by decide)]
    norm_num [logb_two_two, logb_two_four]
  have hidcg : idcg {5, 9} 3 = 1 + 1 / Real.logb 2 3 := by
    unfold idcg
    rw [show min ({5, 9} : Finset ℕ).card 3 = 2 from rfl,
      show List.range 2 = [0, 1] from rfl]
    simp only [List.map_cons, List.map_nil, List.sum_cons, List.sum_nil]
    norm_num [logb_two_two]
  refine ⟨hdcg, hidcg, ?_⟩
  have hL : (0 : ℝ) < Real.logb 2 3 := Real.logb_pos (by norm_num) (by norm_num)
  have hlb := log2_three_lb
  have hub := log2_three_ub
  have hinvub : (1 : ℝ) / Real.logb 2 3 < 31 / 49 := by
    rw [div_lt_div_iff₀ hL (by norm_num)]
    linarith
  have hinvlb : (41 : ℝ) / 65 < 1 / Real.logb 2 3 := by
    rw [div_lt_div_iff₀ (by norm_num) hL]
    linarith
  have hD : (0 : ℝ) < 1 + 1 / Real.logb 2 3 := by positivity
  have hndcg : calculate_ndcg_at_k {5, 9} [9, 1, 5] 3 =
      (3 / 2) / (1 + 1 / Real.logb 2 3) := by
    rw [calculate_ndcg_at_k, hdcg, hidcg, if_neg (by positivity)]
  rw [hndcg, abs_lt]
  constructor
  · have hlow : (147 : ℝ) / 160 < (3 / 2) / (1 + 1 / Real.logb 2 3) := by
      rw [lt_div_iff₀ hD]
      linarith
    linarith
  · have hup : (3 / 2) / (1 + 1 / Real.logb 2 3) < (195 : ℝ) / 212 := by
      rw [div_lt_iff₀ hD]
      linarith
    linarith

/-! ## Ranking lemmas shared by the retrieval claims -/

lemma keyLe_score_le {s : List ℝ} {i j : ℕ} (h : keyLe s i j) :
    score s i ≤ score s j := by
  rcases h with h | ⟨h, _⟩
  · exact le_of_lt h
  · exact le_of_eq h

lemma length_argsortAsc (s : List ℝ) : (argsortAsc s).length = s.length := by
  rw [argsortAsc, List.length_insertionSort, List.length_range]

lemma sorted_argsortAsc (s : List ℝ) : List.Sorted (keyLe s) (argsortAsc s) :=
  List.sorted_insertionSort (keyLe s) (List.range s.length)

lemma mem_argsortAsc {s : List ℝ} {i : ℕ} : i ∈ argsortAsc s ↔ i < s.length := by
  rw [argsortAsc, List.mem_insertionSort, List.mem_range]

/-- Every Python suffix slice is a `List.drop`. -/
lemma pySliceFrom_eq_drop {α : Type} (start : ℤ) (l : List α) :
    ∃ m, pySliceFrom start l = l.drop m := by
  rw [pySliceFrom]
  split
  · exact ⟨l.length - (-start).toNat, rfl⟩
  · exact ⟨start.toNat, rfl⟩

/-- The top-k index list of the code is sorted by strictly descending
score, with equal scores in descending index order (the reverse of the
ascending stable `argsort`). -/
lemma pairwise_topKIndices (s : List ℝ) (k : ℤ) :
    (topKIndices s k).Pairwise (fun a b => keyLe s b a) := by
  rw [topKIndices]
  rw [show (fun a b => keyLe s b a) = (fun a b => (fun x y => keyLe s x y) b a)
    from rfl]
  rw [List.pairwise_reverse]
  obtain ⟨m, hm⟩ := pySliceFrom_eq_drop (-k) (argsortAsc s)
  rw [hm]
  exact List.Pairwise.sublist (List.drop_sublist m (argsortAsc s))
    (sorted_argsortAsc s)

/-- Result length for positive `k`: `min k n` where `n` is the number of
document rows (`= corpus size` in every state `_build_index` produces). -/
lemma length_retrieve_pos (st : RecipeRetriever) (query : List String)
    {k : ℤ} (hn : st.index.tfidf.length = st.recipes.length) (hk : 0 < k) :
    (retrieve_recipes st query k).length = min k.toNat st.recipes.length := by
  have hs : (cosineSims st.index query).length = st.recipes.length := by
    rw [cosineSims, List.length_map, hn]
  rw [retrieve_recipes, List.length_map, topKIndices, List.length_reverse,
    pySliceFrom, if_pos (by omega : -k < 0), List.length_drop,
    length_argsortAsc, hs]
  omega

/-! ## A concrete two-document corpus for witnesses and counterexamples

Two recipes whose searchable text tokenizes to `["apple"]` each.  With
`min_df = 2` the fitted vocabulary is `{"apple"}`, the smoothed idf is
`ln(3/3) + 1 = 1`, and both L2-normalised document rows are `[1]`.
`demoRetriever` is exactly the state `RecipeRetriever.__init__` builds for
this corpus, which `mkRetriever_demo` proves. -/

def rApple1 : Recipe := ⟨1, ["apple"]⟩

def rApple2 : Recipe := ⟨2, ["apple"]⟩

noncomputable def demoIndex : TfidfIndex := ⟨["apple"], [1], [[1], [1]]⟩

noncomputable def demoRetriever : RecipeRetriever :=
  ⟨[rApple1, rApple2], demoIndex⟩

lemma vecNorm_single (x : ℝ) : vecNorm [x] = Real.sqrt (x * x) := by
  rw [vecNorm]
  norm_num

lemma l2norm_single_one : l2norm [(1 : ℝ)] = [1] := by
  have hv : vecNorm [(1 : ℝ)] = 1 := by
    rw [vecNorm_single]
    norm_num
  rw [l2norm, hv, if_neg one_ne_zero]
  norm_num

lemma l2norm_single_zero : l2norm [(0 : ℝ)] = [0] := by
  have hv : vecNorm [(0 : ℝ)] = 0 := by
    rw [vecNorm_single]
    norm_num
  rw [l2norm, hv, if_pos rfl]

lemma dot_cons (x y : ℝ) (v w : List ℝ) :
    dot (x :: v) (y :: w) = x * y + dot v w := by
  simp [dot]

lemma dot_nil_left (w : List ℝ) : dot [] w = 0 := by
  simp [dot]

/-- A vector of zeros has zero dot product with anything. -/
lemma dot_eq_zero_of_left_zero :
    ∀ (v w : List ℝ), (∀ x ∈ v, x = 0) → dot v w = 0 := by
  intro v
  induction v with
  | nil => intro w _; exact dot_nil_left w
  | cons x v ih =>
    intro w hx
    cases w with
    | nil => simp [dot]
    | cons y w =>
      rw [dot_cons, hx x (by simp), ih w (fun z hz => hx z (by simp [hz]))]
      ring

/-- The query `["zzz"]` has no overlap with the demo vocabulary, so its
transformed vector is the zero vector. -/
lemma transformQuery_demo : transformQuery demoIndex ["zzz"] = [0] := by
  rw [transformQuery]
  rw [show (demoIndex.vocab.zip demoIndex.idf).map
      (fun p => (((["zzz"] : List String).count p.1 : ℝ) * p.2)) =
      [((["zzz"] : List String).count "apple" : ℝ) * 1] from rfl]
  rw [show ((["zzz"] : List String).count "apple") = 0 from rfl]
  norm_num
  exact l2norm_single_zero

/-- Both demo documents get similarity exactly 0 against `["zzz"]`. -/
lemma cosineSims_demo : cosineSims demoIndex ["zzz"] = [0, 0] := by
  rw [cosineSims, transformQuery_demo]
  rw [show demoIndex.tfidf = [[(1 : ℝ)], [1]] from rfl]
  rw [l2norm_single_zero]
  simp only [List.map_cons, List.map_nil]
  rw [dot_eq_zero_of_left_zero [0] _ (by norm_num)]

/-- With both scores tied at 0, the ascending argsort is the identity
permutation (stable: equal keys keep index order). -/
lemma argsortAsc_demo : argsortAsc [(0 : ℝ), 0] = [0, 1] := by
  rw [argsortAsc]
  rw [show ([(0 : ℝ), 0]).length = 2 from rfl,
    show List.range 2 = [0, 1] from rfl]
  simp only [List.insertionSort, List.orderedInsert]
  rw [if_pos (show keyLe [(0 : ℝ), 0] 0 1 from Or.inr ⟨rfl, Nat.zero_le 1⟩)]

/-- The demo state really is what `__init__` builds from the two-recipe
corpus: the index is reachable, not hand-invented. -/
lemma mkRetriever_demo :
    mkRetriever [rApple1, rApple2] = Except.ok demoRetriever := by
  have h1 : fit_transform [["apple"], ["apple"]] =
      Except.ok ⟨["apple"],
        [Real.log ((1 + ((2 : ℕ) : ℝ)) / (1 + ((2 : ℕ) : ℝ))) + 1],
        [l2norm [((1 : ℕ) : ℝ) *
            (Real.log ((1 + ((2 : ℕ) : ℝ)) / (1 + ((2 : ℕ) : ℝ))) + 1)],
         l2norm [((1 : ℕ) : ℝ) *
            (Real.log ((1 + ((2 : ℕ) : ℝ)) / (1 + ((2 : ℕ) : ℝ))) + 1)]]⟩ := rfl
  have hlog : Real.log ((1 + ((2 : ℕ) : ℝ)) / (1 + ((2 : ℕ) : ℝ))) + 1 = 1 := by
    norm_num
  rw [mkRetriever,
    show ([rApple1, rApple2].map Recipe.tokens) = [["apple"], ["apple"]]
      from rfl,
    h1, hlog]
  norm_num [Except.map, l2norm_single_one]
  rfl

/-! ## Claim C1 — result-count bounds -/

/-- C1 counterexample: on the (reachable) two-document demo corpus,
`retrieve(query, 0)` returns 2 results, not the empty sequence the claim
requires for `k ≤ 0` — Python's `[-0:]` slice is the whole array. -/
theorem C1_bounds_counterexample :
    mkRetriever [rApple1, rApple2] = Except.ok demoRetriever ∧
    (retrieve_recipes demoRetriever ["zzz"] 0).length = 2 ∧ (2 : ℕ) ≠ 0 := by
  refine ⟨mkRetriever_demo, ?_, by decide⟩
  rw [retrieve_recipes, List.length_map, topKIndices, List.length_reverse,
    neg_zero, pySliceFrom, if_neg (lt_irrefl (0 : ℤ)), Int.toNat_zero,
    List.drop_zero, length_argsortAsc, cosineSims, List.length_map]
  rfl

/-- C1 (amended): `retrieve(query, k)` returns `min(k, corpus_size)` results
for `k > 0`; but for `k = 0` it returns ALL `corpus_size` documents ranked
(the slice `[-0:]` is the full array), and for `k < 0` it returns
`corpus_size − |k|` results (clamped at 0, via ℕ-subtraction), never the
empty sequence promised for every `k ≤ 0`. -/
theorem C1_result_bounds (st : RecipeRetriever) (query : List String) (k : ℤ)
    (hn : st.index.tfidf.length = st.recipes.length) :
    (0 < k →
      (retrieve_recipes st query k).length = min k.toNat st.recipes.length) ∧
    (k = 0 → (retrieve_recipes st query k).length = st.recipes.length) ∧
    (k < 0 →
      (retrieve_recipes st query k).length = st.recipes.length - (-k).toNat) := by
  have hs : (cosineSims st.index query).length = st.recipes.length := by
    rw [cosineSims, List.length_map, hn]
  refine ⟨fun hk => length_retrieve_pos st query hn hk, fun hk => ?_,
    fun hk => ?_⟩
  · subst hk
    rw [retrieve_recipes, List.length_map, topKIndices, List.length_reverse,
      neg_zero, pySliceFrom, if_neg (lt_irrefl (0 : ℤ)), Int.toNat_zero,
      List.drop_zero, length_argsortAsc, hs]
  · rw [retrieve_recipes, List.length_map, topKIndices, List.length_reverse,
      pySliceFrom, if_neg (by omega : ¬(-k < 0)), List.length_drop,
      length_argsortAsc, hs]

/-- C1 witness: the amended bound evaluated on the demo corpus with
`k = 1`. -/
theorem C1_result_bounds_witness :
    (retrieve_recipes demoRetriever ["zzz"] 1).length =
      min (1 : ℤ).toNat demoRetriever.recipes.length :=
  (C1_result_bounds demoRetriever ["zzz"] 1 rfl).1 (by norm_num)

/-! ## Claim C2 — tie-breaking order -/

/-- C2 counterexample: on the (reachable) demo corpus both documents score
exactly 0 against the zero-overlap query, yet `retrieve` returns them as
`[rApple2, rApple1]` — the REVERSE of their ingestion order, because the
ascending argsort is reversed wholesale. -/
theorem C2_tie_order_counterexample :
    mkRetriever [rApple1, rApple2] = Except.ok demoRetriever ∧
    cosineSims demoRetriever.index ["zzz"] = [0, 0] ∧
    (retrieve_recipes demoRetriever ["zzz"] 2).map Prod.fst =
      [rApple2, rApple1] ∧
    ([rApple2, rApple1] : List Recipe) ≠ [rApple1, rApple2] := by
  have hidx : demoRetriever.index = demoIndex := rfl
  refine ⟨mkRetriever_demo, by rw [hidx]; exact cosineSims_demo, ?_, by decide⟩
  rw [retrieve_recipes, hidx, cosineSims_demo, topKIndices, argsortAsc_demo]
  rfl

/-- C2 (amended): the ranking is deterministic, but documents with exactly
equal scores appear in REVERSE original document-store order (descending
index), not original order: the output indices are pairwise ordered by
descending score with descending index on ties, i.e. the reversal of a
stable ascending sort. -/
theorem C2_tie_break (st : RecipeRetriever) (query : List String) (k : ℤ) :
    (topKIndices (cosineSims st.index query) k).Pairwise
      (fun a b =>
        score (cosineSims st.index query) b < score (cosineSims st.index query) a ∨
        (score (cosineSims st.index query) b = score (cosineSims st.index query) a ∧
          b ≤ a)) ∧
    retrieve_recipes st query k =
      (topKIndices (cosineSims st.index query) k).map
        (fun i => (st.recipes.getD i default, score (cosineSims st.index query) i)) :=
  ⟨pairwise_topKIndices (cosineSims st.index query) k, rfl⟩

/-! ## Claim C3 — top-k correctness -/

/-- C3: for `k > 0` the returned scores are non-increasing, and no
unreturned document scores strictly higher than any returned one (hence in
particular not higher than the lowest-scoring returned document). -/
theorem C3_topk_correct (st : RecipeRetriever) (query : List String) (k : ℤ)
    (_hk : 0 < k) :
    ((retrieve_recipes st query k).map Prod.snd).Pairwise (fun a b => b ≤ a) ∧
    ∀ j < (cosineSims st.index query).length,
      j ∉ topKIndices (cosineSims st.index query) k →
      ∀ p ∈ retrieve_recipes st query k,
        score (cosineSims st.index query) j ≤ p.2 := by
  constructor
  · have hmap : (retrieve_recipes st query k).map Prod.snd =
        (topKIndices (cosineSims st.index query) k).map
          (fun i => score (cosineSims st.index query) i) := by
      rw [retrieve_recipes, List.map_map]
      rfl
    rw [hmap]
    exact (pairwise_topKIndices (cosineSims st.index query) k).map _
      (fun a b h => keyLe_score_le h)
  · intro j hj hjn p hp
    obtain ⟨m, hm⟩ := pySliceFrom_eq_drop (-k) (argsortAsc (cosineSims st.index query))
    rw [retrieve_recipes] at hp
    obtain ⟨i, hi, hip⟩ := List.mem_map.1 hp
    have hi' : i ∈ List.drop m (argsortAsc (cosineSims st.index query)) := by
      rw [topKIndices, hm, List.mem_reverse] at hi
      exact hi
    have hj' : j ∈ List.take m (argsortAsc (cosineSims st.index query)) := by
      have hjA : j ∈ argsortAsc (cosineSims st.index query) := mem_argsortAsc.2 hj
      rw [← List.take_append_drop m (argsortAsc (cosineSims st.index query))] at hjA
      rcases List.mem_append.1 hjA with h | h
      · exact h
      · exact absurd (by rw [topKIndices, hm, List.mem_reverse]; exact h) hjn
    have hkey : keyLe (cosineSims st.index query) j i :=
      (sorted_argsortAsc (cosineSims st.index query)).rel_of_mem_take_of_mem_drop hj' hi'
    rw [← hip]
    exact keyLe_score_le hkey

/-- C3 witness: instantiated on the demo corpus with `k = 1`. -/
theorem C3_topk_correct_witness :
    (0 : ℤ) < 1 ∧
    (((retrieve_recipes demoRetriever ["zzz"] 1).map Prod.snd).Pairwise
        (fun a b => b ≤ a) ∧
      ∀ j < (cosineSims demoRetriever.index ["zzz"]).length,
        j ∉ topKIndices (cosineSims demoRetriever.index ["zzz"]) 1 →
        ∀ p ∈ retrieve_recipes demoRetriever ["zzz"] 1,
          score (cosineSims demoRetriever.index ["zzz"]) j ≤ p.2) :=
  ⟨by norm_num, C3_topk_correct demoRetriever ["zzz"] 1 (by norm_num)⟩

/-! ## Claim C4 — zero-overlap queries -/

lemma l2norm_replicate_zero (n : ℕ) :
    l2norm (List.replicate n (0 : ℝ)) = List.replicate n 0 := by
  have hv : vecNorm (List.replicate n (0 : ℝ)) = 0 := by
    rw [vecNorm, List.map_replicate]
    norm_num [List.sum_replicate]
  rw [l2norm, hv, if_pos rfl]

lemma score_eq_zero_of_all_zero {s : List ℝ} (h : ∀ x ∈ s, x = 0) (i : ℕ) :
    score s i = 0 := by
  rw [score, List.getD_eq_getElem?_getD]
  cases hg : s[i]? with
  | none => rfl
  | some x =>
    simp only [Option.getD_some]
    exact h x (List.getElem?_mem hg)

/-- C4: a query all of whose terms miss the fitted vocabulary vectorizes to
the all-zero vector (no error), every returned `relevance_score` is exactly
0, and the result set still has `min(k, corpus_size)` elements. -/
theorem C4_zero_overlap (st : RecipeRetriever) (query : List String) (k : ℤ)
    (hq : ∀ t ∈ query, t ∉ st.index.vocab)
    (hv : st.index.idf.length = st.index.vocab.length)
    (hn : st.index.tfidf.length = st.recipes.length)
    (hk : 0 < k) :
    transformQuery st.index query = List.replicate st.index.vocab.length 0 ∧
    (∀ p ∈ retrieve_recipes st query k, p.2 = 0) ∧
    (retrieve_recipes st query k).length = min k.toNat st.recipes.length := by
  have hraw : (st.index.vocab.zip st.index.idf).map
      (fun p => ((query.count p.1 : ℝ) * p.2)) =
      List.replicate st.index.vocab.length 0 := by
    rw [List.eq_replicate_iff]
    constructor
    · rw [List.length_map, List.length_zip, hv, Nat.min_self]
    · intro b hb
      obtain ⟨p, hp, hpb⟩ := List.mem_map.1 hb
      obtain ⟨t, w⟩ := p
      have ht : t ∈ st.index.vocab := (List.of_mem_zip hp).1
      have hcount : query.count t = 0 :=
        List.count_eq_zero.2 (fun hc => hq t hc ht)
      rw [← hpb]
      simp only
      rw [hcount]
      norm_num
  have hqvec : transformQuery st.index query =
      List.replicate st.index.vocab.length 0 := by
    rw [transformQuery, hraw, l2norm_replicate_zero]
  have hsims : ∀ x ∈ cosineSims st.index query, x = 0 := by
    intro x hx
    rw [cosineSims] at hx
    obtain ⟨row, hrow, hxr⟩ := List.mem_map.1 hx
    rw [← hxr, hqvec, l2norm_replicate_zero]
    exact dot_eq_zero_of_left_zero _ _ (fun y hy => List.eq_of_mem_replicate hy)
  refine ⟨hqvec, ?_, length_retrieve_pos st query hn hk⟩
  intro p hp
  rw [retrieve_recipes] at hp
  obtain ⟨i, hi, hip⟩ := List.mem_map.1 hp
  rw [← hip]
  exact score_eq_zero_of_all_zero hsims i

/-- C4 witness: the demo corpus with the out-of-vocabulary query `["zzz"]`
and `k = 1`. -/
theorem C4_zero_overlap_witness :
    (∀ t ∈ (["zzz"] : List String), t ∉ demoRetriever.index.vocab) ∧
    (transformQuery demoRetriever.index ["zzz"] =
        List.replicate demoRetriever.index.vocab.length 0 ∧
      (∀ p ∈ retrieve_recipes demoRetriever ["zzz"] 1, p.2 = 0) ∧
      (retrieve_recipes demoRetriever ["zzz"] 1).length =
        min (1 : ℤ).toNat demoRetriever.recipes.length) :=
  ⟨by decide,
    C4_zero_overlap demoRetriever ["zzz"] 1 (by decide) rfl rfl (by norm_num)⟩

/-! ## Claim C5 — retrieve never mutates the store or index -/

lemma foldl_append_map {α β : Type} (g : α → β) :
    ∀ (l : List α) (acc : List β),
      l.foldl (fun a i => a ++ [g i]) acc = acc ++ l.map g := by
  intro l
  induction l with
  | nil => intro acc; simp
  | cons x l ih =>
    intro acc
    rw [List.foldl_cons, ih, List.map_cons]
    simp

/-- C5: the state-transformer form of `retrieve_recipes` returns the
retriever state unchanged (the method only reads the store and index and
copies records before decorating them), and its result list is exactly the
pure function of `(query, k, index state)`. -/
theorem C5_retrieve_pure (st : RecipeRetriever) (query : List String) (k : ℤ) :
    (retrieve_recipes_step st query k).2 = st ∧
    (retrieve_recipes_step st query k).1 = retrieve_recipes st query k := by
  refine ⟨rfl, ?_⟩
  rw [retrieve_recipes_step, retrieve_recipes]
  rw [foldl_append_map]
  simp

/-! ## Claim C6 — error on an empty / unusable corpus -/

/-- C6 counterexample: building from the empty corpus does raise, but it
raises sklearn's `ValueError` (there is no `IndexBuildError` anywhere in
the code), so the claim's named error is wrong. -/
theorem C6_error_type_counterexample :
    fit_transform ([] : List (List String)) =
      Except.error (PyError.valueError
        "empty vocabulary; perhaps the documents only contain stop words") ∧
    isIndexBuildError (fit_transform ([] : List (List String))) = false :=
  ⟨rfl, rfl⟩

/-- C6 (amended): index building fails — with sklearn's `ValueError`
("empty vocabulary"), not a custom `IndexBuildError` — when the document
sequence is empty or every document is empty after tokenization and
stop-word filtering, and no index is produced. -/
theorem C6_empty_corpus_error (docs : List (List String))
    (h : docs = [] ∨ ∀ d ∈ docs, d = []) :
    fit_transform docs =
      Except.error (PyError.valueError
        "empty vocabulary; perhaps the documents only contain stop words") := by
  have hflat : ∀ ds : List (List String), (∀ d ∈ ds, d = []) → ds.flatten = [] := by
    intro ds
    induction ds with
    | nil => intro _; rfl
    | cons d tl ih =>
      intro hds
      rw [List.flatten_cons, hds d (by simp), List.nil_append]
      exact ih (fun x hx => hds x (by simp [hx]))
  rcases h with h | h
  · subst h; rfl
  · rw [fit_transform, hflat docs h]
    rfl

/-- C6 witness: the amended statement applied to the empty corpus. -/
theorem C6_empty_corpus_error_witness :
    fit_transform ([] : List (List String)) =
      Except.error (PyError.valueError
        "empty vocabulary; perhaps the documents only contain stop words") :=
  C6_empty_corpus_error [] (Or.inl rfl)

/-! ## Claim C9 — determinism -/

/-- C9: for a fixed retriever state, query and `k`, any two results of
`retrieve_recipes` are identical — the embedding is a pure function, which
is exactly what the absence of randomness, timing or hidden state in the
code amounts to. -/
theorem C9_deterministic (st : RecipeRetriever) (query : List String) (k : ℤ)
    (r₁ r₂ : List (Recipe × ℝ))
    (h₁ : r₁ = retrieve_recipes st query k)
    (h₂ : r₂ = retrieve_recipes st query k) : r₁ = r₂ :=
  h₁.trans h₂.symm

/-- C9 witness: two calls on the demo corpus agree. -/
theorem C9_deterministic_witness :
    retrieve_recipes demoRetriever ["zzz"] 1 =
      retrieve_recipes demoRetriever ["zzz"] 1 :=
  C9_deterministic demoRetriever ["zzz"] 1 _ _ rfl rfl

end RecipeQA
